import Mathlib

/-!
Verification of the Nightlight-O-Matic schedule/timer engine
(src/src/lampomatic.cpp) against its natural-language specification.

The embedding below is a shallow, executable translation of the program's
global state and of the functions `setSchedule`, `setAlarms`,
`clearOldTimers`, `saveSettings`, `readSavedSettings`,
`setWeekendTimerState`, the alarm callbacks `startDay`/`endDay`/
`startNight`/`endNight`, `setOutputState`,
`getFormattedHourMinuteConcatenation` and the HTTP handler
`handlePostSchedule`.  The global mutable state of the sketch
(`activeSchedules`, the TimeAlarms pool, `dstOffsetInSeconds`, the EEPROM
contents and `currentStatePersisted`) is threaded explicitly as a
`SystemState` value.  External effects that the claims do not observe
(NTP traffic, actual pin writes, serial output) are either dropped or
returned as explicit command values.  The boolean result of
`EEPROM.commit()` is external nondeterminism and is passed in as a
parameter wherever the source calls it.
-/

namespace Nightlight

/-- Days of the week with the TimeAlarms encoding (dowSunday = 1 ...
dowSaturday = 7); the numeric codes themselves are never needed, only
identity of days. -/
inductive DayOfWeek where
  | sunday
  | monday
  | tuesday
  | wednesday
  | thursday
  | friday
  | saturday
deriving DecidableEq

/-- The four alarm callback functions registered with `Alarm.alarmRepeat`
in lampomatic.cpp, used as tags on alarm slots. -/
inductive CallbackTag where
  | startDay
  | endDay
  | startNight
  | endNight
deriving DecidableEq

/-- One recurring alarm slot of the TimeAlarms pool: an optional
day-of-week (`none` = fires every day), an hour:minute trigger, the
registered callback and the enabled flag (`Alarm.disable` /
`Alarm.enable`). -/
@[ext]
structure AlarmEntry where
  dow : Option DayOfWeek
  hour : Int
  minute : Int
  tag : CallbackTag
  enabled : Bool
deriving DecidableEq

/-- The TimeAlarms pool, modelled as the association list of live slots
keyed by their ids.  Ids are handed out from a monotone counter; the
source relies on the pool being sized with headroom, so allocation is
modelled as always succeeding. -/
@[ext]
structure AlarmRegistry where
  nextId : Nat
  alarms : List (Nat × AlarmEntry)
deriving DecidableEq

/-- `Alarm.alarmRepeat(dow, h, m, 0, cb)`: allocate a weekly recurring
alarm, returning its id. -/
def AlarmRegistry.alarmRepeatDow (r : AlarmRegistry) (d : DayOfWeek) (h m : Int)
    (tag : CallbackTag) : Nat × AlarmRegistry :=
  (r.nextId,
    { nextId := r.nextId + 1,
      alarms := r.alarms ++ [(r.nextId, { dow := some d, hour := h, minute := m, tag := tag, enabled := true })] })

/-- `Alarm.alarmRepeat(h, m, 0, cb)`: allocate a daily recurring alarm,
returning its id. -/
def AlarmRegistry.alarmRepeat (r : AlarmRegistry) (h m : Int)
    (tag : CallbackTag) : Nat × AlarmRegistry :=
  (r.nextId,
    { nextId := r.nextId + 1,
      alarms := r.alarms ++ [(r.nextId, { dow := none, hour := h, minute := m, tag := tag, enabled := true })] })

/-- `Alarm.free(id)`: release a slot; freeing an id that is not live is a
no-op, as in TimeAlarms. -/
def AlarmRegistry.free (r : AlarmRegistry) (id : Nat) : AlarmRegistry :=
  { r with alarms := r.alarms.filter (fun p => p.1 != id) }

/-- Shared body of `Alarm.disable` / `Alarm.enable`: set the enabled flag
of the slot with the given id, a no-op on ids that are not live. -/
def AlarmRegistry.setOnOff (r : AlarmRegistry) (id : Nat) (b : Bool) : AlarmRegistry :=
  { r with alarms := r.alarms.map (fun p => if p.1 = id then (p.1, { p.2 with enabled := b }) else p) }

/-- `Alarm.disable(id)`. -/
def AlarmRegistry.disable (r : AlarmRegistry) (id : Nat) : AlarmRegistry :=
  r.setOnOff id false

/-- `Alarm.enable(id)`. -/
def AlarmRegistry.enable (r : AlarmRegistry) (id : Nat) : AlarmRegistry :=
  r.setOnOff id true

/-- Observe the slot currently registered under an id. -/
def AlarmRegistry.findEntry (r : AlarmRegistry) (id : Nat) : Option AlarmEntry :=
  (r.alarms.find? (fun p => p.1 == id)).map (fun p => p.2)

/-- `struct Schedule` of lampomatic.cpp: the timer-id array (modelled as
the list of slots the program actually writes) and the start/end
hour:minute fields.  Hours use `int`, with -1 as the "no weekend
override" sentinel on `startHour`. -/
@[ext]
structure Schedule where
  timerIds : List Nat
  startHour : Int
  startMinute : Int
  endHour : Int
  endMinute : Int
deriving DecidableEq

/-- `struct OutputState`. -/
@[ext]
structure OutputState where
  dayActive : Bool
  nightActive : Bool
deriving DecidableEq

/-- `struct StateContainer` (the `activeSchedules` global and the EEPROM
snapshot layout). -/
@[ext]
structure StateContainer where
  persistedInEEPROM : Bool
  initialized : Bool
  dstActive : Bool
  day : Schedule
  night : Schedule
  weekendDay : Schedule
  weekendNight : Schedule
  dayIntensity : Int
  nightIntensity : Int
  currentState : OutputState
deriving DecidableEq

/-- `scheduleType_t` enum. -/
inductive scheduleType_t where
  | dayStart
  | dayEnd
  | nightStart
  | nightEnd
  | weekendDayStart
  | weekendDayEnd
  | weekendNightStart
  | weekendNightEnd
deriving DecidableEq

/-- The sketch's mutable globals threaded explicitly: `activeSchedules`,
the TimeAlarms pool, `dstOffsetInSeconds`, the EEPROM contents (a single
`StateContainer` record at address 0) and `currentStatePersisted`. -/
@[ext]
structure SystemState where
  activeSchedules : StateContainer
  registry : AlarmRegistry
  dstOffsetInSeconds : Int
  eeprom : StateContainer
  currentStatePersisted : Bool
deriving DecidableEq

/-- `clearOldTimers(int timerIds[], int size)`: `Alarm.free` the first
`size` stored ids. -/
def clearOldTimers (r : AlarmRegistry) (timerIds : List Nat) (size : Nat) : AlarmRegistry :=
  (timerIds.take size).foldl AlarmRegistry.free r

/-- The teardown block at the top of `setSchedule` (lampomatic.cpp
lines 370-379): when a schedule is already installed, free the two day
ids, the two night ids, and, when the previous weekend override was
configured, the six weekend-day and five weekend-night ids. -/
def releaseOldTimers (st : SystemState) : SystemState :=
  if st.activeSchedules.initialized = true then
    let r1 := clearOldTimers st.registry st.activeSchedules.day.timerIds 2
    let r2 := clearOldTimers r1 st.activeSchedules.night.timerIds 2
    let r3 :=
      if st.activeSchedules.weekendDay.startHour != -1 then
        clearOldTimers (clearOldTimers r2 st.activeSchedules.weekendDay.timerIds 6)
          st.activeSchedules.weekendNight.timerIds 5
      else r2
    { st with registry := r3 }
  else st

/-- `setAlarms(bool weekendActive)` (lampomatic.cpp lines 397-427),
reading the times out of `activeSchedules` and storing the returned ids
back into the timer-id arrays.  The weekend block allocates the six
weekend-day and five weekend-night alarms first; then the regular
daily day/night pairs are allocated unconditionally. -/
def setAlarms (weekendActive : Bool) (st : SystemState) : SystemState :=
  let stw :=
    if weekendActive then
      let a := st.activeSchedules
      let p0 := st.registry.alarmRepeatDow .friday a.day.startHour a.day.startMinute .startDay
      let p1 := p0.2.alarmRepeatDow .friday a.weekendDay.endHour a.weekendDay.endMinute .endDay
      let p2 := p1.2.alarmRepeatDow .saturday a.weekendDay.startHour a.weekendDay.startMinute .startDay
      let p3 := p2.2.alarmRepeatDow .saturday a.weekendDay.endHour a.weekendDay.endMinute .endDay
      let p4 := p3.2.alarmRepeatDow .sunday a.weekendDay.startHour a.weekendDay.startMinute .startDay
      let p5 := p4.2.alarmRepeatDow .sunday a.day.endHour a.day.endMinute .endDay
      let p6 := p5.2.alarmRepeatDow .friday a.weekendNight.startHour a.weekendNight.startMinute .startNight
      let p7 := p6.2.alarmRepeatDow .saturday a.weekendNight.endHour a.weekendNight.endMinute .endNight
      let p8 := p7.2.alarmRepeatDow .saturday a.weekendNight.startHour a.weekendNight.startMinute .startNight
      let p9 := p8.2.alarmRepeatDow .sunday a.weekendNight.endHour a.weekendNight.endMinute .endNight
      let p10 := p9.2.alarmRepeatDow .sunday a.night.startHour a.night.startMinute .startNight
      { st with
        registry := p10.2,
        activeSchedules :=
          { a with
            weekendDay := { a.weekendDay with timerIds := [p0.1, p1.1, p2.1, p3.1, p4.1, p5.1] },
            weekendNight := { a.weekendNight with timerIds := [p6.1, p7.1, p8.1, p9.1, p10.1] } } }
    else st
  let a := stw.activeSchedules
  let q0 := stw.registry.alarmRepeat a.day.startHour a.day.startMinute .startDay
  let q1 := q0.2.alarmRepeat a.day.endHour a.day.endMinute .endDay
  let q2 := q1.2.alarmRepeat a.night.startHour a.night.startMinute .startNight
  let q3 := q2.2.alarmRepeat a.night.endHour a.night.endMinute .endNight
  { stw with
    registry := q3.2,
    activeSchedules :=
      { a with
        day := { a.day with timerIds := [q0.1, q1.1] },
        night := { a.night with timerIds := [q2.1, q3.1] } } }

/-- `setSchedule(day, night, dst, weekendDay, weekendNight)`
(lampomatic.cpp lines 368-395).  The NTP offset update and resync are
external effects; their state footprint is `dstOffsetInSeconds`. -/
def setSchedule (day night : Schedule) (dst : Bool) (weekendDay weekendNight : Schedule)
    (st : SystemState) : SystemState :=
  let st1 := releaseOldTimers st
  let a :=
    { st1.activeSchedules with
      dstActive := dst, persistedInEEPROM := false,
      day := day, night := night,
      weekendDay := weekendDay, weekendNight := weekendNight }
  let st2 :=
    { st1 with
      activeSchedules := a,
      dstOffsetInSeconds := if dst = true then 3600 else 0 }
  let st3 := setAlarms (weekendDay.startHour != -1) st2
  { st3 with activeSchedules := { st3.activeSchedules with initialized := true } }

/-- `saveSettings(int eepromAdress, StateContainer currentState)`
(lampomatic.cpp lines 483-499).  `commitOk` is the boolean returned by
`EEPROM.commit()`. -/
def saveSettings (commitOk : Bool) (currentState : StateContainer)
    (st : SystemState) : Bool × SystemState :=
  let toSave := { currentState with persistedInEEPROM := true }
  let st1 := { st with eeprom := toSave }
  let saveOk := commitOk
  let st2 := { st1 with activeSchedules := { st1.activeSchedules with persistedInEEPROM := saveOk } }
  (saveOk, st2)

/-- `readSavedSettings(int eepromAdress)` (lampomatic.cpp lines
448-481): read the snapshot; only when its `persistedInEEPROM` field is
true, recompute the DST offset and overwrite `activeSchedules` with it. -/
def readSavedSettings (st : SystemState) : SystemState :=
  let savedSchedule := st.eeprom
  if savedSchedule.persistedInEEPROM = true then
    { st with
      dstOffsetInSeconds := if savedSchedule.dstActive = true then 3600 else 0,
      activeSchedules := savedSchedule }
  else st

/-- Alarm callback `startDay` (lampomatic.cpp lines 523-527). -/
def startDay (commitOk : Bool) (st : SystemState) : SystemState :=
  let st1 := { st with activeSchedules :=
    { st.activeSchedules with currentState :=
      { st.activeSchedules.currentState with dayActive := true } } }
  (saveSettings commitOk st1.activeSchedules st1).2

/-- Alarm callback `endDay`. -/
def endDay (commitOk : Bool) (st : SystemState) : SystemState :=
  let st1 := { st with activeSchedules :=
    { st.activeSchedules with currentState :=
      { st.activeSchedules.currentState with dayActive := false } } }
  (saveSettings commitOk st1.activeSchedules st1).2

/-- Alarm callback `startNight`. -/
def startNight (commitOk : Bool) (st : SystemState) : SystemState :=
  let st1 := { st with activeSchedules :=
    { st.activeSchedules with currentState :=
      { st.activeSchedules.currentState with nightActive := true } } }
  (saveSettings commitOk st1.activeSchedules st1).2

/-- Alarm callback `endNight`. -/
def endNight (commitOk : Bool) (st : SystemState) : SystemState :=
  let st1 := { st with activeSchedules :=
    { st.activeSchedules with currentState :=
      { st.activeSchedules.currentState with nightActive := false } } }
  (saveSettings commitOk st1.activeSchedules st1).2

/-- NodeMCU pin constants: `dayPin = D2` (GPIO4), `nightPin = D1`
(GPIO5). -/
def dayPin : Nat := 4

/-- See `dayPin`. -/
def nightPin : Nat := 5

/-- The physical write emitted for one channel. -/
inductive PinCommand where
  | analogWrite (pin : Nat) (value : Int)
  | digitalWriteLow (pin : Nat)
deriving DecidableEq

/-- Arduino `map(x, in_min, in_max, out_min, out_max)`; all uses here
have nonnegative operands, for which C integer division and Lean `Int`
division agree. -/
def arduinoMap (x inMin inMax outMin outMax : Int) : Int :=
  (x - inMin) * (outMax - outMin) / (inMax - inMin) + outMin

/-- `setOutputState()` (lampomatic.cpp lines 547-568), returned as the
pair (day-channel command, night-channel command). -/
def setOutputState (a : StateContainer) : PinCommand × PinCommand :=
  ((if a.currentState.dayActive = true then
      PinCommand.analogWrite dayPin (arduinoMap a.dayIntensity 0 100 0 1023)
    else PinCommand.digitalWriteLow dayPin),
   (if a.currentState.nightActive = true then
      PinCommand.analogWrite nightPin (arduinoMap a.nightIntensity 0 100 0 1023)
    else PinCommand.digitalWriteLow nightPin))

/-- `weekday() == dowFriday || weekday() == dowSaturday || weekday() == dowSunday`. -/
def weekendDow (d : DayOfWeek) : Bool :=
  d == .friday || d == .saturday || d == .sunday

/-- `setWeekendTimerState()` (lampomatic.cpp lines 501-520), with the
current day-of-week passed in for `weekday()`. -/
def setWeekendTimerState (wd : DayOfWeek) (st : SystemState) : SystemState :=
  if weekendDow wd = true then
    let r1 := st.registry.disable (st.activeSchedules.day.timerIds.getD 0 0)
    let r2 := r1.disable (st.activeSchedules.day.timerIds.getD 1 0)
    let r3 := r2.disable (st.activeSchedules.night.timerIds.getD 0 0)
    let r4 := r3.disable (st.activeSchedules.night.timerIds.getD 1 0)
    { st with registry := r4 }
  else
    let r1 := st.registry.enable (st.activeSchedules.night.timerIds.getD 0 0)
    let r2 := r1.enable (st.activeSchedules.night.timerIds.getD 1 0)
    let r3 := r2.enable (st.activeSchedules.day.timerIds.getD 0 0)
    let r4 := r3.enable (st.activeSchedules.day.timerIds.getD 1 0)
    { st with registry := r4 }

/-- The timer-state reconciliation performed by `loop()` on each minute
tick (lampomatic.cpp lines 206-214): when a schedule is installed and a
weekend override is configured, toggle the regular alarms according to
the day of week.  (`setOutputState` emits pin commands and does not
change this state.) -/
def loopTick (wd : DayOfWeek) (st : SystemState) : SystemState :=
  if st.activeSchedules.initialized = true then
    if st.activeSchedules.weekendDay.startHour != -1 then setWeekendTimerState wd st
    else st
  else st

/-- The digit-accumulating loop of `atol`: consume leading decimal
digits, stop at the first non-digit. -/
def atolAux : List Char → Int → Int
  | [], acc => acc
  | c :: cs, acc =>
      if c.isDigit then atolAux cs (acc * 10 + ((c.toNat : Int) - 48)) else acc

/-- Arduino `String.toInt()` (atol) on the nonnegative digit strings this
program feeds it: the value of the leading digits, 0 when there are
none. -/
def stringToInt (s : String) : Int :=
  atolAux s.data 0

/-- `server.arg(name).substring(0, 2).toInt()`. -/
def parseHourArg (s : String) : Int :=
  stringToInt (String.mk (s.data.take 2))

/-- `server.arg(name).substring(3).toInt()`. -/
def parseMinuteArg (s : String) : Int :=
  stringToInt (String.mk (s.data.drop 3))

/-- The `h < 10 ? "0" + String(h) : String(h)` zero-padding of
`getFormattedHourMinuteConcatenation`. -/
def twoDigit (n : Int) : String :=
  if n < 10 then "0" ++ toString n else toString n

/-- `getFormattedHourMinuteConcatenation(scheduleType_t)` (lampomatic.cpp
lines 570-623); for unconfigured weekend entries both strings stay empty
and the result is ":". -/
def getFormattedHourMinuteConcatenation (a : StateContainer)
    (scheduleType : scheduleType_t) : String :=
  match scheduleType with
  | .dayStart => twoDigit a.day.startHour ++ ":" ++ twoDigit a.day.startMinute
  | .dayEnd => twoDigit a.day.endHour ++ ":" ++ twoDigit a.day.endMinute
  | .nightStart => twoDigit a.night.startHour ++ ":" ++ twoDigit a.night.startMinute
  | .nightEnd => twoDigit a.night.endHour ++ ":" ++ twoDigit a.night.endMinute
  | .weekendDayStart =>
      if a.weekendDay.startHour != -1 then
        twoDigit a.weekendDay.startHour ++ ":" ++ twoDigit a.weekendDay.startMinute
      else ":"
  | .weekendDayEnd =>
      if a.weekendDay.startHour != -1 then
        twoDigit a.weekendDay.endHour ++ ":" ++ twoDigit a.weekendDay.endMinute
      else ":"
  | .weekendNightStart =>
      if a.weekendNight.startHour != -1 then
        twoDigit a.weekendNight.startHour ++ ":" ++ twoDigit a.weekendNight.startMinute
      else ":"
  | .weekendNightEnd =>
      if a.weekendNight.startHour != -1 then
        twoDigit a.weekendNight.endHour ++ ":" ++ twoDigit a.weekendNight.endMinute
      else ":"

/-- `const char *superSecretPassword = "zuul";`. -/
def superSecretPassword : String := "zuul"

/-- The form fields of a POST to /time as the handler sees them: `none`
models `server.hasArg(name) == false`, and `server.arg(name)` is the
field's value or "" when absent. -/
structure PostRequest where
  gatekeeper : Option String
  dayStart : Option String
  dayEnd : Option String
  nightStart : Option String
  nightEnd : Option String
  dayIntensity : Option String
  nightIntensity : Option String
  dst : Option String
  weekendDayStart : Option String
  weekendDayEnd : Option String
  weekendNightStart : Option String
  weekendNightEnd : Option String
deriving DecidableEq

/-- `serverHasRequiredArgs()` (lampomatic.cpp lines 311-314); on the
ESP8266 `String == NULL` is the empty-string test. -/
def serverHasRequiredArgs (req : PostRequest) : Bool :=
  req.nightStart.isSome && req.nightEnd.isSome && req.dayStart.isSome && req.dayEnd.isSome &&
  req.nightIntensity.isSome && req.dayIntensity.isSome &&
  (req.nightStart.getD "" != "") && (req.nightEnd.getD "" != "") &&
  (req.dayStart.getD "" != "") && (req.dayEnd.getD "" != "") &&
  (req.nightIntensity.getD "" != "") && (req.dayIntensity.getD "" != "")

/-- `serverHasOptionalArgs()` (lampomatic.cpp lines 316-319). -/
def serverHasOptionalArgs (req : PostRequest) : Bool :=
  req.weekendDayStart.isSome && req.weekendDayEnd.isSome &&
  req.weekendNightStart.isSome && req.weekendNightEnd.isSome &&
  (req.weekendDayStart.getD "" != "") && (req.weekendDayEnd.getD "" != "") &&
  (req.weekendNightStart.getD "" != "") && (req.weekendNightEnd.getD "" != "")

/-- HTTP responses the handler can send. -/
inductive HttpResponse where
  | badRequest
  | unauthorizedResp
  | okTime
deriving DecidableEq

/-- `handlePostSchedule()` (lampomatic.cpp lines 246-309).  The weekend
`Schedule` locals are declared uninitialized in the source with only
`startHour` set to -1; the remaining fields (never read while the
sentinel is in place) are modelled as 0.  `commitOk` feeds the
`EEPROM.commit()` inside the final `saveSettings` call. -/
def handlePostSchedule (req : PostRequest) (commitOk : Bool)
    (st : SystemState) : HttpResponse × SystemState :=
  if req.gatekeeper.isNone || (req.gatekeeper.getD "" == "") then
    (HttpResponse.badRequest, st)
  else if req.gatekeeper.getD "" == superSecretPassword then
    if serverHasRequiredArgs req = true then
      let a0 := { st.activeSchedules with
                  nightIntensity := stringToInt (req.nightIntensity.getD ""),
                  dayIntensity := stringToInt (req.dayIntensity.getD "") }
      let st0 := { st with activeSchedules := a0 }
      let dst := req.dst.isSome && (req.dst.getD "" == "on")
      let day : Schedule :=
        { timerIds := [],
          startHour := parseHourArg (req.dayStart.getD ""),
          startMinute := parseMinuteArg (req.dayStart.getD ""),
          endHour := parseHourArg (req.dayEnd.getD ""),
          endMinute := parseMinuteArg (req.dayEnd.getD "") }
      let night : Schedule :=
        { timerIds := [],
          startHour := parseHourArg (req.nightStart.getD ""),
          startMinute := parseMinuteArg (req.nightStart.getD ""),
          endHour := parseHourArg (req.nightEnd.getD ""),
          endMinute := parseMinuteArg (req.nightEnd.getD "") }
      let weekendDay : Schedule :=
        if serverHasOptionalArgs req = true then
          { timerIds := [],
            startHour := parseHourArg (req.weekendDayStart.getD ""),
            startMinute := parseMinuteArg (req.weekendDayStart.getD ""),
            endHour := parseHourArg (req.weekendDayEnd.getD ""),
            endMinute := parseMinuteArg (req.weekendDayEnd.getD "") }
        else
          { timerIds := [], startHour := -1, startMinute := 0, endHour := 0, endMinute := 0 }
      let weekendNight : Schedule :=
        if serverHasOptionalArgs req = true then
          { timerIds := [],
            startHour := parseHourArg (req.weekendNightStart.getD ""),
            startMinute := parseMinuteArg (req.weekendNightStart.getD ""),
            endHour := parseHourArg (req.weekendNightEnd.getD ""),
            endMinute := parseMinuteArg (req.weekendNightEnd.getD "") }
        else
          { timerIds := [], startHour := -1, startMinute := 0, endHour := 0, endMinute := 0 }
      let st1 := setSchedule day night dst weekendDay weekendNight st0
      let saved := saveSettings commitOk st1.activeSchedules st1
      (HttpResponse.okTime, { saved.2 with currentStatePersisted := saved.1 })
    else
      (HttpResponse.badRequest, st)
  else
    (HttpResponse.unauthorizedResp, st)

/-! Specification-side definitions. -/

/-- The alarm ids a `StateContainer` owns, exactly as `setSchedule`'s
teardown walks them: the first two day and night ids always, the first
six weekend-day and first five weekend-night ids when the weekend
override is configured. -/
def ownedIds (a : StateContainer) : List Nat :=
  a.day.timerIds.take 2 ++ a.night.timerIds.take 2 ++
    (if a.weekendDay.startHour != -1 then
      a.weekendDay.timerIds.take 6 ++ a.weekendNight.timerIds.take 5
    else [])

/-- The four regular alarm ids toggled by `setWeekendTimerState`. -/
def regularTimerIds (a : StateContainer) : List Nat :=
  [a.day.timerIds.getD 0 0, a.day.timerIds.getD 1 0,
   a.night.timerIds.getD 0 0, a.night.timerIds.getD 1 0]

/-- Every live registry slot is owned by the installed state; this is
what guarantees a reconfiguration frees the whole pool before
reallocating. -/
def registryOwned (st : SystemState) : Prop :=
  ∀ p ∈ st.registry.alarms, p.1 ∈ ownedIds st.activeSchedules

instance (st : SystemState) : Decidable (registryOwned st) := by
  unfold registryOwned
  infer_instance

/-- Valid wall-clock fields: hour 0-23, minute 0-59. -/
def validTime (h m : Int) : Prop :=
  0 ≤ h ∧ h ≤ 23 ∧ 0 ≤ m ∧ m ≤ 59

instance (h m : Int) : Decidable (validTime h m) := by
  unfold validTime
  infer_instance

/-- The four regular daily alarms `setAlarms` allocates, when allocation
starts at id `k`: day start/end then night start/end, all with
day-of-week "every day". -/
def regularAlarmEntries (k : Nat) (d n : Schedule) : List (Nat × AlarmEntry) :=
  [(k, { dow := none, hour := d.startHour, minute := d.startMinute, tag := .startDay, enabled := true }),
   (k + 1, { dow := none, hour := d.endHour, minute := d.endMinute, tag := .endDay, enabled := true }),
   (k + 2, { dow := none, hour := n.startHour, minute := n.startMinute, tag := .startNight, enabled := true }),
   (k + 3, { dow := none, hour := n.endHour, minute := n.endMinute, tag := .endNight, enabled := true })]

/-- The eleven weekend alarms `setAlarms` allocates when a weekend
override is configured, when allocation starts at id `k`: six for the
weekend day channel, five for the weekend night channel, with the
asymmetric Friday/Sunday boundary pairing of the source. -/
def weekendAlarmEntries (k : Nat) (d n wd wn : Schedule) : List (Nat × AlarmEntry) :=
  [(k, { dow := some .friday, hour := d.startHour, minute := d.startMinute, tag := .startDay, enabled := true }),
   (k + 1, { dow := some .friday, hour := wd.endHour, minute := wd.endMinute, tag := .endDay, enabled := true }),
   (k + 2, { dow := some .saturday, hour := wd.startHour, minute := wd.startMinute, tag := .startDay, enabled := true }),
   (k + 3, { dow := some .saturday, hour := wd.endHour, minute := wd.endMinute, tag := .endDay, enabled := true }),
   (k + 4, { dow := some .sunday, hour := wd.startHour, minute := wd.startMinute, tag := .startDay, enabled := true }),
   (k + 5, { dow := some .sunday, hour := d.endHour, minute := d.endMinute, tag := .endDay, enabled := true }),
   (k + 6, { dow := some .friday, hour := wn.startHour, minute := wn.startMinute, tag := .startNight, enabled := true }),
   (k + 7, { dow := some .saturday, hour := wn.endHour, minute := wn.endMinute, tag := .endNight, enabled := true }),
   (k + 8, { dow := some .saturday, hour := wn.startHour, minute := wn.startMinute, tag := .startNight, enabled := true }),
   (k + 9, { dow := some .sunday, hour := wn.endHour, minute := wn.endMinute, tag := .endNight, enabled := true }),
   (k + 10, { dow := some .sunday, hour := n.startHour, minute := n.startMinute, tag := .startNight, enabled := true })]

/-! Concrete sample states for witnesses and counterexamples. -/

/-- A zeroed `StateContainer`, the power-on value of `activeSchedules`. -/
def zeroState : StateContainer :=
  { persistedInEEPROM := false, initialized := false, dstActive := false,
    day := { timerIds := [], startHour := 0, startMinute := 0, endHour := 0, endMinute := 0 },
    night := { timerIds := [], startHour := 0, startMinute := 0, endHour := 0, endMinute := 0 },
    weekendDay := { timerIds := [], startHour := 0, startMinute := 0, endHour := 0, endMinute := 0 },
    weekendNight := { timerIds := [], startHour := 0, startMinute := 0, endHour := 0, endMinute := 0 },
    dayIntensity := 0, nightIntensity := 0,
    currentState := { dayActive := false, nightActive := false } }

/-- Day schedule 07:00-19:00. -/
def dEx : Schedule := { timerIds := [], startHour := 7, startMinute := 0, endHour := 19, endMinute := 0 }

/-- Night schedule 19:00-07:00. -/
def nEx : Schedule := { timerIds := [], startHour := 19, startMinute := 0, endHour := 7, endMinute := 0 }

/-- Weekend day schedule 09:00-21:00. -/
def wdEx : Schedule := { timerIds := [], startHour := 9, startMinute := 0, endHour := 21, endMinute := 0 }

/-- Weekend night schedule 21:00-09:00. -/
def wnEx : Schedule := { timerIds := [], startHour := 21, startMinute := 0, endHour := 9, endMinute := 0 }

/-- The weekend-override sentinel schedule produced by the handler. -/
def wNone : Schedule := { timerIds := [], startHour := -1, startMinute := 0, endHour := 0, endMinute := 0 }

/-- A pristine power-on system state. -/
def bootState : SystemState :=
  { activeSchedules := zeroState,
    registry := { nextId := 0, alarms := [] },
    dstOffsetInSeconds := 0,
    eeprom := zeroState,
    currentStatePersisted := false }

/-- A state with the regular-only example schedule installed, obtained by
running `setSchedule` on the pristine state. -/
def sampleInstalled : SystemState :=
  setSchedule dEx nEx false wNone wNone bootState

/-- A state with the weekend override installed on top. -/
def sampleWeekendInstalled : SystemState :=
  setSchedule dEx nEx false wdEx wnEx sampleInstalled

/-- A well-formed POST except that the day schedule starts at hour 24. -/
def reqHour24 : PostRequest :=
  { gatekeeper := some "zuul",
    dayStart := some "24:00", dayEnd := some "19:00",
    nightStart := some "19:00", nightEnd := some "07:00",
    dayIntensity := some "80", nightIntensity := some "30", dst := none,
    weekendDayStart := none, weekendDayEnd := none,
    weekendNightStart := none, weekendNightEnd := none }

/-- A well-formed POST that supplies only one of the four weekend
times. -/
def reqPartialWeekend : PostRequest :=
  { gatekeeper := some "zuul",
    dayStart := some "08:00", dayEnd := some "20:00",
    nightStart := some "20:00", nightEnd := some "08:00",
    dayIntensity := some "70", nightIntensity := some "20", dst := none,
    weekendDayStart := some "10:00", weekendDayEnd := none,
    weekendNightStart := none, weekendNightEnd := none }

/-! Helper lemmas. -/

lemma foldl_free_nextId (l : List Nat) (r : AlarmRegistry) :
    (l.foldl AlarmRegistry.free r).nextId = r.nextId := by
  induction l generalizing r with
  | nil => rfl
  | cons x xs ih => simpa [AlarmRegistry.free] using ih (r.free x)

lemma foldl_free_eq_nil (l : List Nat) (r : AlarmRegistry)
    (h : ∀ p ∈ r.alarms, p.1 ∈ l) :
    (l.foldl AlarmRegistry.free r).alarms = [] := by
  induction l generalizing r with
  | nil =>
      rcases r with ⟨k, alarms⟩
      cases alarms with
      | nil => rfl
      | cons p ps => exact absurd (h p (by simp)) (by simp)
  | cons x xs ih =>
      simp only [List.foldl_cons]
      apply ih
      intro p hp
      have hmem : p ∈ r.alarms ∧ p.1 ≠ x := by
        simpa [AlarmRegistry.free, List.mem_filter] using hp
      have := h p hmem.1
      simp only [List.mem_cons] at this
      rcases this with h1 | h1
      · exact absurd h1 hmem.2
      · exact h1

lemma releaseOldTimers_spec (st : SystemState)
    (hInit : st.activeSchedules.initialized = true)
    (hOwn : registryOwned st) :
    releaseOldTimers st = { st with registry := { nextId := st.registry.nextId, alarms := [] } } := by
  unfold releaseOldTimers
  rw [if_pos hInit]
  unfold clearOldTimers
  by_cases hwk : st.activeSchedules.weekendDay.startHour = -1
  · have hcond : (st.activeSchedules.weekendDay.startHour != -1) = false := by
      simp [hwk]
    rw [hcond]
    simp only [Bool.false_eq_true, if_false]
    have hfold :
        (st.activeSchedules.night.timerIds.take 2).foldl AlarmRegistry.free
            ((st.activeSchedules.day.timerIds.take 2).foldl AlarmRegistry.free st.registry) =
          (st.activeSchedules.day.timerIds.take 2 ++
            st.activeSchedules.night.timerIds.take 2).foldl AlarmRegistry.free st.registry := by
      rw [List.foldl_append]
    rw [hfold]
    congr 1
    refine AlarmRegistry.ext (foldl_free_nextId _ _) ?_
    rw [foldl_free_eq_nil]
    intro p hp
    have := hOwn p hp
    simpa [ownedIds, hcond] using this
  · have hcond : (st.activeSchedules.weekendDay.startHour != -1) = true := by
      simp [bne_iff_ne, hwk]
    rw [hcond]
    simp only [if_true]
    have hfold :
        (st.activeSchedules.weekendNight.timerIds.take 5).foldl AlarmRegistry.free
            ((st.activeSchedules.weekendDay.timerIds.take 6).foldl AlarmRegistry.free
              ((st.activeSchedules.night.timerIds.take 2).foldl AlarmRegistry.free
                ((st.activeSchedules.day.timerIds.take 2).foldl AlarmRegistry.free st.registry))) =
          (st.activeSchedules.day.timerIds.take 2 ++
            st.activeSchedules.night.timerIds.take 2 ++
            (st.activeSchedules.weekendDay.timerIds.take 6 ++
              st.activeSchedules.weekendNight.timerIds.take 5)).foldl
            AlarmRegistry.free st.registry := by
      rw [List.foldl_append, List.foldl_append, List.foldl_append]
    rw [hfold]
    congr 1
    refine AlarmRegistry.ext (foldl_free_nextId _ _) ?_
    rw [foldl_free_eq_nil]
    intro p hp
    have := hOwn p hp
    simpa [ownedIds, hcond] using this

lemma releaseOldTimers_activeSchedules (st : SystemState) :
    (releaseOldTimers st).activeSchedules = st.activeSchedules := by
  unfold releaseOldTimers
  split <;> rfl

lemma setSchedule_activeSchedules (d n : Schedule) (dst : Bool) (wd wn : Schedule)
    (st : SystemState) :
    (setSchedule d n dst wd wn st).activeSchedules =
      (if wd.startHour != -1 then
        { persistedInEEPROM := false, initialized := true, dstActive := dst,
          day := { d with timerIds := [(releaseOldTimers st).registry.nextId + 11,
                                       (releaseOldTimers st).registry.nextId + 12] },
          night := { n with timerIds := [(releaseOldTimers st).registry.nextId + 13,
                                         (releaseOldTimers st).registry.nextId + 14] },
          weekendDay := { wd with timerIds :=
            [(releaseOldTimers st).registry.nextId,
             (releaseOldTimers st).registry.nextId + 1,
             (releaseOldTimers st).registry.nextId + 2,
             (releaseOldTimers st).registry.nextId + 3,
             (releaseOldTimers st).registry.nextId + 4,
             (releaseOldTimers st).registry.nextId + 5] },
          weekendNight := { wn with timerIds :=
            [(releaseOldTimers st).registry.nextId + 6,
             (releaseOldTimers st).registry.nextId + 7,
             (releaseOldTimers st).registry.nextId + 8,
             (releaseOldTimers st).registry.nextId + 9,
             (releaseOldTimers st).registry.nextId + 10] },
          dayIntensity := st.activeSchedules.dayIntensity,
          nightIntensity := st.activeSchedules.nightIntensity,
          currentState := st.activeSchedules.currentState }
      else
        { persistedInEEPROM := false, initialized := true, dstActive := dst,
          day := { d with timerIds := [(releaseOldTimers st).registry.nextId,
                                       (releaseOldTimers st).registry.nextId + 1] },
          night := { n with timerIds := [(releaseOldTimers st).registry.nextId + 2,
                                         (releaseOldTimers st).registry.nextId + 3] },
          weekendDay := wd, weekendNight := wn,
          dayIntensity := st.activeSchedules.dayIntensity,
          nightIntensity := st.activeSchedules.nightIntensity,
          currentState := st.activeSchedules.currentState }) := by
  by_cases hwk : (wd.startHour != -1) = true
  · rw [if_pos hwk]
    simp [setSchedule, setAlarms, hwk, releaseOldTimers_activeSchedules,
      AlarmRegistry.alarmRepeatDow, AlarmRegistry.alarmRepeat]
  · rw [if_neg (by simpa using hwk)]
    simp [setSchedule, setAlarms, hwk, releaseOldTimers_activeSchedules,
      AlarmRegistry.alarmRepeatDow, AlarmRegistry.alarmRepeat]

lemma setSchedule_registry (d n : Schedule) (dst : Bool) (wd wn : Schedule)
    (st : SystemState)
    (hInit : st.activeSchedules.initialized = true)
    (hOwn : registryOwned st) :
    (setSchedule d n dst wd wn st).registry =
      (if wd.startHour != -1 then
        { nextId := st.registry.nextId + 15,
          alarms := weekendAlarmEntries st.registry.nextId d n wd wn ++
            regularAlarmEntries (st.registry.nextId + 11) d n }
      else
        { nextId := st.registry.nextId + 4,
          alarms := regularAlarmEntries st.registry.nextId d n }) := by
  have hrel := releaseOldTimers_spec st hInit hOwn
  by_cases hwk : (wd.startHour != -1) = true
  · rw [if_pos hwk]
    simp [setSchedule, setAlarms, hwk, hrel,
      AlarmRegistry.alarmRepeatDow, AlarmRegistry.alarmRepeat,
      weekendAlarmEntries, regularAlarmEntries]
  · rw [if_neg (by simpa using hwk)]
    simp [setSchedule, setAlarms, hwk, hrel,
      AlarmRegistry.alarmRepeatDow, AlarmRegistry.alarmRepeat,
      regularAlarmEntries]

lemma setSchedule_keeps_inv (d n : Schedule) (dst : Bool) (wd wn : Schedule)
    (st : SystemState)
    (hInit : st.activeSchedules.initialized = true)
    (hOwn : registryOwned st) :
    (setSchedule d n dst wd wn st).activeSchedules.initialized = true ∧
      registryOwned (setSchedule d n dst wd wn st) := by
  have hreg := setSchedule_registry d n dst wd wn st hInit hOwn
  have hact := setSchedule_activeSchedules d n dst wd wn st
  have hnext : (releaseOldTimers st).registry.nextId = st.registry.nextId := by
    rw [releaseOldTimers_spec st hInit hOwn]
  constructor
  · rw [hact]
    by_cases hwk : (wd.startHour != -1) = true
    · rw [if_pos hwk]
    · rw [if_neg (by simpa using hwk)]
  · intro p hp
    rw [hreg] at hp
    rw [hact]
    unfold ownedIds
    by_cases hwk : (wd.startHour != -1) = true
    · rw [if_pos hwk] at hp ⊢
      simp only [hwk, if_true, hnext]
      simp only [weekendAlarmEntries, regularAlarmEntries, List.mem_append,
        List.mem_cons, List.not_mem_nil, or_false] at hp
      rcases hp with ((rfl | rfl | rfl | rfl | rfl | rfl | rfl | rfl | rfl | rfl | rfl) |
        (rfl | rfl | rfl | rfl)) <;>
        simp [List.take]
    · rw [if_neg (by simpa using hwk)] at hp ⊢
      simp only [hwk, Bool.false_eq_true, if_false, hnext]
      simp only [regularAlarmEntries, List.mem_cons, List.not_mem_nil, or_false] at hp
      rcases hp with (rfl | rfl | rfl | rfl) <;>
        simp [List.take, hwk]

/-! Claim theorems. -/

/-- C1: when a weekend override is configured, applying a schedule
installs exactly the asymmetric boundary pairing: on the weekend day
channel a Friday start alarm at the regular day-start time, a Friday end
alarm at the weekend day-end time, Saturday start and end alarms at the
weekend day times, a Sunday start alarm at the weekend day-start time
and a Sunday end alarm at the regular day-end time; on the weekend night
channel a Friday start alarm at the weekend night-start time with its
end alarm on Saturday at the weekend night-end time, a Saturday start
alarm with its end alarm on Sunday, and a fifth, start-tagged Sunday
alarm at the regular night-start time with no weekend-specific
terminating alarm of its own (see `weekendAlarmEntries`); the four daily
regular alarms follow. -/
theorem setSchedule_weekend_alarm_pairing (d n wd wn : Schedule) (dst : Bool)
    (st : SystemState)
    (hInit : st.activeSchedules.initialized = true)
    (hOwn : registryOwned st)
    (hWk : wd.startHour ≠ -1) :
    (setSchedule d n dst wd wn st).registry.alarms =
      weekendAlarmEntries st.registry.nextId d n wd wn ++
        regularAlarmEntries (st.registry.nextId + 11) d n ∧
    (setSchedule d n dst wd wn st).activeSchedules.weekendDay.timerIds =
      [st.registry.nextId, st.registry.nextId + 1, st.registry.nextId + 2,
       st.registry.nextId + 3, st.registry.nextId + 4, st.registry.nextId + 5] ∧
    (setSchedule d n dst wd wn st).activeSchedules.weekendNight.timerIds =
      [st.registry.nextId + 6, st.registry.nextId + 7, st.registry.nextId + 8,
       st.registry.nextId + 9, st.registry.nextId + 10] := by
  have hwk : (wd.startHour != -1) = true := by simp [bne_iff_ne, hWk]
  have hnext : (releaseOldTimers st).registry.nextId = st.registry.nextId := by
    rw [releaseOldTimers_spec st hInit hOwn]
  refine ⟨?_, ?_, ?_⟩
  · rw [setSchedule_registry d n dst wd wn st hInit hOwn, if_pos hwk]
  · rw [setSchedule_activeSchedules d n dst wd wn st, if_pos hwk]
    simp [hnext]
  · rw [setSchedule_activeSchedules d n dst wd wn st, if_pos hwk]
    simp [hnext]

/-- Witness for C1 at a concrete installed state. -/
theorem setSchedule_weekend_alarm_pairing_witness :
    (setSchedule dEx nEx false wdEx wnEx sampleInstalled).registry.alarms =
      weekendAlarmEntries sampleInstalled.registry.nextId dEx nEx wdEx wnEx ++
        regularAlarmEntries (sampleInstalled.registry.nextId + 11) dEx nEx ∧
    (setSchedule dEx nEx false wdEx wnEx sampleInstalled).activeSchedules.weekendDay.timerIds =
      [sampleInstalled.registry.nextId, sampleInstalled.registry.nextId + 1,
       sampleInstalled.registry.nextId + 2, sampleInstalled.registry.nextId + 3,
       sampleInstalled.registry.nextId + 4, sampleInstalled.registry.nextId + 5] ∧
    (setSchedule dEx nEx false wdEx wnEx sampleInstalled).activeSchedules.weekendNight.timerIds =
      [sampleInstalled.registry.nextId + 6, sampleInstalled.registry.nextId + 7,
       sampleInstalled.registry.nextId + 8, sampleInstalled.registry.nextId + 9,
       sampleInstalled.registry.nextId + 10] :=
  setSchedule_weekend_alarm_pairing dEx nEx wdEx wnEx false sampleInstalled
    (by decide) (by decide) (by decide)

/-- C2: a transition from an installed schedule to a new one first
releases every alarm slot owned by the previous state (the registry is
empty after `releaseOldTimers`), then allocates the new schedule's
alarms, so the slot count afterwards is exactly 4 without a weekend
override and 15 with one; applying the same schedule twice leaves the
same count as applying it once. -/
theorem setSchedule_slot_count (d n wd wn : Schedule) (dst : Bool)
    (st : SystemState)
    (hInit : st.activeSchedules.initialized = true)
    (hOwn : registryOwned st) :
    (releaseOldTimers st).registry.alarms = [] ∧
    (setSchedule d n dst wd wn st).registry.alarms.length =
      (if wd.startHour = -1 then 4 else 15) ∧
    (setSchedule d n dst wd wn (setSchedule d n dst wd wn st)).registry.alarms.length =
      (if wd.startHour = -1 then 4 else 15) := by
  have h1 : (releaseOldTimers st).registry.alarms = [] := by
    rw [releaseOldTimers_spec st hInit hOwn]
  have hlen : ∀ stx : SystemState, stx.activeSchedules.initialized = true →
      registryOwned stx →
      (setSchedule d n dst wd wn stx).registry.alarms.length =
        (if wd.startHour = -1 then 4 else 15) := by
    intro stx hI hO
    rw [setSchedule_registry d n dst wd wn stx hI hO]
    by_cases hwk : wd.startHour = -1
    · simp [hwk, regularAlarmEntries]
    · simp [hwk, bne_iff_ne, weekendAlarmEntries, regularAlarmEntries]
  obtain ⟨hI2, hO2⟩ := setSchedule_keeps_inv d n dst wd wn st hInit hOwn
  exact ⟨h1, hlen st hInit hOwn, hlen _ hI2 hO2⟩

/-- Witness for C2 at a concrete installed state, taking it to a weekend
schedule (count 15). -/
theorem setSchedule_slot_count_witness :
    (releaseOldTimers sampleInstalled).registry.alarms = [] ∧
    (setSchedule dEx nEx false wdEx wnEx sampleInstalled).registry.alarms.length = 15 ∧
    (setSchedule dEx nEx false wdEx wnEx
      (setSchedule dEx nEx false wdEx wnEx sampleInstalled)).registry.alarms.length = 15 :=
  setSchedule_slot_count dEx nEx wdEx wnEx false sampleInstalled (by decide) (by decide)

lemma find_map_toggle (l : List (Nat × AlarmEntry)) (x y : Nat) (b : Bool) :
    (l.map (fun p => if p.1 = x then (p.1, { p.2 with enabled := b }) else p)).find?
        (fun p => p.1 == y) =
      (if y = x then (l.find? (fun p => p.1 == y)).map
          (fun p => (p.1, { p.2 with enabled := b }))
        else l.find? (fun p => p.1 == y)) := by
  induction l with
  | nil => split <;> simp
  | cons p l ih =>
      by_cases hpx : p.1 = x
      · by_cases hpy : p.1 = y
        · have hyx : y = x := by rw [← hpy, hpx]
          simp [List.find?_cons, hpx, hpy, hyx]
        · have hxy : (x == y) = false := by
            simp [show ¬ x = y from fun h => hpy (h ▸ hpx)]
          simp only [List.map_cons, hpx, if_true, List.find?_cons, hxy, cond_false]
          exact ih
      · by_cases hpy : p.1 = y
        · have hyx : ¬ y = x := fun h => hpx (by rw [hpy, h])
          simp [List.find?_cons, hpx, hpy, hyx]
        · have hyBeq : (p.1 == y) = false := by simp [hpy]
          simp only [List.map_cons, hpx, if_false, List.find?_cons, hyBeq, cond_false]
          rw [ih]

lemma findEntry_setOnOff (r : AlarmRegistry) (x y : Nat) (b : Bool) :
    (r.setOnOff x b).findEntry y =
      (if y = x then (r.findEntry y).map (fun e => { e with enabled := b })
        else r.findEntry y) := by
  unfold AlarmRegistry.setOnOff AlarmRegistry.findEntry
  simp only [find_map_toggle]
  split
  · simp only [Option.map_map]
    rfl
  · rfl

lemma chain_toggle (r : AlarmRegistry) (a b c d y : Nat) (bb : Bool)
    (hab : a ≠ b) (hac : a ≠ c) (had : a ≠ d)
    (hbc : b ≠ c) (hbd : b ≠ d) (hcd : c ≠ d) :
    ((((r.setOnOff a bb).setOnOff b bb).setOnOff c bb).setOnOff d bb).findEntry y =
      (if y = a ∨ y = b ∨ y = c ∨ y = d then
        (r.findEntry y).map (fun e => { e with enabled := bb })
      else r.findEntry y) := by
  rw [findEntry_setOnOff, findEntry_setOnOff, findEntry_setOnOff, findEntry_setOnOff]
  by_cases h1 : y = a <;> by_cases h2 : y = b <;> by_cases h3 : y = c <;>
    by_cases h4 : y = d <;> simp_all

/-- C5: on a tick of an initialized state with a configured weekend
override, the four regular day/night alarms are suspended when the day
of week is Friday, Saturday or Sunday and re-armed on Monday through
Thursday (their registry entries get `enabled := !(weekendDow wd)`),
while every other alarm id — in particular all weekend-specific
alarms — is left untouched by the tick. -/
theorem loopTick_weekend_toggle (wd : DayOfWeek) (st : SystemState)
    (hInit : st.activeSchedules.initialized = true)
    (hWk : st.activeSchedules.weekendDay.startHour ≠ -1)
    (hNd : (regularTimerIds st.activeSchedules).Nodup) :
    (∀ id ∈ regularTimerIds st.activeSchedules,
      (loopTick wd st).registry.findEntry id =
        (st.registry.findEntry id).map
          (fun e => { e with enabled := !(weekendDow wd) })) ∧
    (∀ id, id ∉ regularTimerIds st.activeSchedules →
      (loopTick wd st).registry.findEntry id = st.registry.findEntry id) := by
  have hwkb : (st.activeSchedules.weekendDay.startHour != -1) = true := by
    simp [bne_iff_ne, hWk]
  have hloop : loopTick wd st = setWeekendTimerState wd st := by
    simp [loopTick, hInit, hwkb]
  rw [hloop]
  unfold setWeekendTimerState regularTimerIds
  unfold regularTimerIds at hNd
  set i0 := st.activeSchedules.day.timerIds.getD 0 0 with hi0
  set i1 := st.activeSchedules.day.timerIds.getD 1 0 with hi1
  set i2 := st.activeSchedules.night.timerIds.getD 0 0 with hi2
  set i3 := st.activeSchedules.night.timerIds.getD 1 0 with hi3
  rw [List.nodup_cons] at hNd
  obtain ⟨hm0, hNd1⟩ := hNd
  rw [List.nodup_cons] at hNd1
  obtain ⟨hm1, hNd2⟩ := hNd1
  rw [List.nodup_cons] at hNd2
  obtain ⟨hm2, -⟩ := hNd2
  have h01 : i0 ≠ i1 := fun h => hm0 (by simp [h])
  have h02 : i0 ≠ i2 := fun h => hm0 (by simp [h])
  have h03 : i0 ≠ i3 := fun h => hm0 (by simp [h])
  have h12 : i1 ≠ i2 := fun h => hm1 (by simp [h])
  have h13 : i1 ≠ i3 := fun h => hm1 (by simp [h])
  have h23 : i2 ≠ i3 := fun h => hm2 (by simp [h])
  by_cases hw : weekendDow wd = true
  · rw [if_pos hw]
    simp only [AlarmRegistry.disable]
    constructor
    · intro id hid
      simp only [List.mem_cons, List.not_mem_nil, or_false] at hid
      show ((((st.registry.setOnOff i0 false).setOnOff i1 false).setOnOff i2
          false).setOnOff i3 false).findEntry id = _
      rw [chain_toggle st.registry i0 i1 i2 i3 id false h01 h02 h03 h12 h13 h23,
        if_pos hid, hw]
      rfl
    · intro id hid
      simp only [List.mem_cons, List.not_mem_nil, or_false] at hid
      show ((((st.registry.setOnOff i0 false).setOnOff i1 false).setOnOff i2
          false).setOnOff i3 false).findEntry id = _
      rw [chain_toggle st.registry i0 i1 i2 i3 id false h01 h02 h03 h12 h13 h23,
        if_neg hid]
  · rw [if_neg hw]
    have hwf : weekendDow wd = false := by
      revert hw
      cases weekendDow wd <;> simp
    simp only [AlarmRegistry.enable]
    constructor
    · intro id hid
      simp only [List.mem_cons, List.not_mem_nil, or_false] at hid
      show ((((st.registry.setOnOff i2 true).setOnOff i3 true).setOnOff i0
          true).setOnOff i1 true).findEntry id = _
      rw [chain_toggle st.registry i2 i3 i0 i1 id true h23 h02.symm h12.symm
        h03.symm h13.symm h01, if_pos (by tauto), hwf]
      rfl
    · intro id hid
      simp only [List.mem_cons, List.not_mem_nil, or_false] at hid
      show ((((st.registry.setOnOff i2 true).setOnOff i3 true).setOnOff i0
          true).setOnOff i1 true).findEntry id = _
      rw [chain_toggle st.registry i2 i3 i0 i1 id true h23 h02.symm h12.symm
        h03.symm h13.symm h01, if_neg (by tauto)]

/-- Witness for C5: on the concrete weekend-installed state, a Saturday
tick suspends the regular alarms and touches nothing else. -/
theorem loopTick_weekend_toggle_witness :
    (∀ id ∈ regularTimerIds sampleWeekendInstalled.activeSchedules,
      (loopTick DayOfWeek.saturday sampleWeekendInstalled).registry.findEntry id =
        (sampleWeekendInstalled.registry.findEntry id).map
          (fun e => { e with enabled := !(weekendDow DayOfWeek.saturday) })) ∧
    (∀ id, id ∉ regularTimerIds sampleWeekendInstalled.activeSchedules →
      (loopTick DayOfWeek.saturday sampleWeekendInstalled).registry.findEntry id =
        sampleWeekendInstalled.registry.findEntry id) :=
  loopTick_weekend_toggle DayOfWeek.saturday sampleWeekendInstalled
    (by decide) (by decide) (by decide)

lemma parse_twoDigit_roundTrip (h m : Int) (hv : validTime h m) :
    parseHourArg (twoDigit h ++ ":" ++ twoDigit m) = h ∧
    parseMinuteArg (twoDigit h ++ ":" ++ twoDigit m) = m := by
  obtain ⟨h0, h23, m0, m59⟩ := hv
  have key : ∀ a : Fin 24, ∀ b : Fin 60,
      parseHourArg (twoDigit ((a : Nat) : Int) ++ ":" ++ twoDigit ((b : Nat) : Int)) =
        ((a : Nat) : Int) ∧
      parseMinuteArg (twoDigit ((a : Nat) : Int) ++ ":" ++ twoDigit ((b : Nat) : Int)) =
        ((b : Nat) : Int) := by decide
  have ha : h = ((h.toNat : Nat) : Int) := by omega
  have hb : m = ((m.toNat : Nat) : Int) := by omega
  have ha24 : h.toNat < 24 := by omega
  have hb60 : m.toNat < 60 := by omega
  have := key ⟨h.toNat, ha24⟩ ⟨m.toNat, hb60⟩
  rw [ha, hb]
  exact this

/-- C7: applying a valid schedule and immediately reading the stored day
and night start/end times back yields exactly the submitted values; the
formatted web read-back renders those same values and re-parses to them
through the form's own hour/minute parsing. -/
theorem setSchedule_roundTrip (d n : Schedule) (dst : Bool) (wd wn : Schedule)
    (st : SystemState)
    (hds : validTime d.startHour d.startMinute)
    (hde : validTime d.endHour d.endMinute)
    (hns : validTime n.startHour n.startMinute)
    (hne : validTime n.endHour n.endMinute) :
    ((setSchedule d n dst wd wn st).activeSchedules.day.startHour = d.startHour ∧
     (setSchedule d n dst wd wn st).activeSchedules.day.startMinute = d.startMinute ∧
     (setSchedule d n dst wd wn st).activeSchedules.day.endHour = d.endHour ∧
     (setSchedule d n dst wd wn st).activeSchedules.day.endMinute = d.endMinute ∧
     (setSchedule d n dst wd wn st).activeSchedules.night.startHour = n.startHour ∧
     (setSchedule d n dst wd wn st).activeSchedules.night.startMinute = n.startMinute ∧
     (setSchedule d n dst wd wn st).activeSchedules.night.endHour = n.endHour ∧
     (setSchedule d n dst wd wn st).activeSchedules.night.endMinute = n.endMinute) ∧
    (parseHourArg (getFormattedHourMinuteConcatenation
        (setSchedule d n dst wd wn st).activeSchedules .dayStart) = d.startHour ∧
     parseMinuteArg (getFormattedHourMinuteConcatenation
        (setSchedule d n dst wd wn st).activeSchedules .dayStart) = d.startMinute ∧
     parseHourArg (getFormattedHourMinuteConcatenation
        (setSchedule d n dst wd wn st).activeSchedules .dayEnd) = d.endHour ∧
     parseMinuteArg (getFormattedHourMinuteConcatenation
        (setSchedule d n dst wd wn st).activeSchedules .dayEnd) = d.endMinute ∧
     parseHourArg (getFormattedHourMinuteConcatenation
        (setSchedule d n dst wd wn st).activeSchedules .nightStart) = n.startHour ∧
     parseMinuteArg (getFormattedHourMinuteConcatenation
        (setSchedule d n dst wd wn st).activeSchedules .nightStart) = n.startMinute ∧
     parseHourArg (getFormattedHourMinuteConcatenation
        (setSchedule d n dst wd wn st).activeSchedules .nightEnd) = n.endHour ∧
     parseMinuteArg (getFormattedHourMinuteConcatenation
        (setSchedule d n dst wd wn st).activeSchedules .nightEnd) = n.endMinute) := by
  have hact := setSchedule_activeSchedules d n dst wd wn st
  have hfields :
      (setSchedule d n dst wd wn st).activeSchedules.day.startHour = d.startHour ∧
      (setSchedule d n dst wd wn st).activeSchedules.day.startMinute = d.startMinute ∧
      (setSchedule d n dst wd wn st).activeSchedules.day.endHour = d.endHour ∧
      (setSchedule d n dst wd wn st).activeSchedules.day.endMinute = d.endMinute ∧
      (setSchedule d n dst wd wn st).activeSchedules.night.startHour = n.startHour ∧
      (setSchedule d n dst wd wn st).activeSchedules.night.startMinute = n.startMinute ∧
      (setSchedule d n dst wd wn st).activeSchedules.night.endHour = n.endHour ∧
      (setSchedule d n dst wd wn st).activeSchedules.night.endMinute = n.endMinute := by
    rw [hact]
    by_cases hwk : (wd.startHour != -1) = true
    · rw [if_pos hwk]
      exact ⟨rfl, rfl, rfl, rfl, rfl, rfl, rfl, rfl⟩
    · rw [if_neg hwk]
      exact ⟨rfl, rfl, rfl, rfl, rfl, rfl, rfl, rfl⟩
  obtain ⟨e1, e2, e3, e4, e5, e6, e7, e8⟩ := hfields
  refine ⟨⟨e1, e2, e3, e4, e5, e6, e7, e8⟩, ?_⟩
  have f1 : getFormattedHourMinuteConcatenation
      (setSchedule d n dst wd wn st).activeSchedules .dayStart =
      twoDigit d.startHour ++ ":" ++ twoDigit d.startMinute := by
    unfold getFormattedHourMinuteConcatenation
    rw [e1, e2]
  have f2 : getFormattedHourMinuteConcatenation
      (setSchedule d n dst wd wn st).activeSchedules .dayEnd =
      twoDigit d.endHour ++ ":" ++ twoDigit d.endMinute := by
    unfold getFormattedHourMinuteConcatenation
    rw [e3, e4]
  have f3 : getFormattedHourMinuteConcatenation
      (setSchedule d n dst wd wn st).activeSchedules .nightStart =
      twoDigit n.startHour ++ ":" ++ twoDigit n.startMinute := by
    unfold getFormattedHourMinuteConcatenation
    rw [e5, e6]
  have f4 : getFormattedHourMinuteConcatenation
      (setSchedule d n dst wd wn st).activeSchedules .nightEnd =
      twoDigit n.endHour ++ ":" ++ twoDigit n.endMinute := by
    unfold getFormattedHourMinuteConcatenation
    rw [e7, e8]
  rw [f1, f2, f3, f4]
  obtain ⟨p1, p2⟩ := parse_twoDigit_roundTrip d.startHour d.startMinute hds
  obtain ⟨p3, p4⟩ := parse_twoDigit_roundTrip d.endHour d.endMinute hde
  obtain ⟨p5, p6⟩ := parse_twoDigit_roundTrip n.startHour n.startMinute hns
  obtain ⟨p7, p8⟩ := parse_twoDigit_roundTrip n.endHour n.endMinute hne
  exact ⟨p1, p2, p3, p4, p5, p6, p7, p8⟩

/-- Witness for C7 at a concrete valid schedule. -/
theorem setSchedule_roundTrip_witness :
    ((setSchedule dEx nEx false wNone wNone bootState).activeSchedules.day.startHour = dEx.startHour ∧
     (setSchedule dEx nEx false wNone wNone bootState).activeSchedules.day.startMinute = dEx.startMinute ∧
     (setSchedule dEx nEx false wNone wNone bootState).activeSchedules.day.endHour = dEx.endHour ∧
     (setSchedule dEx nEx false wNone wNone bootState).activeSchedules.day.endMinute = dEx.endMinute ∧
     (setSchedule dEx nEx false wNone wNone bootState).activeSchedules.night.startHour = nEx.startHour ∧
     (setSchedule dEx nEx false wNone wNone bootState).activeSchedules.night.startMinute = nEx.startMinute ∧
     (setSchedule dEx nEx false wNone wNone bootState).activeSchedules.night.endHour = nEx.endHour ∧
     (setSchedule dEx nEx false wNone wNone bootState).activeSchedules.night.endMinute = nEx.endMinute) ∧
    (parseHourArg (getFormattedHourMinuteConcatenation
        (setSchedule dEx nEx false wNone wNone bootState).activeSchedules .dayStart) = dEx.startHour ∧
     parseMinuteArg (getFormattedHourMinuteConcatenation
        (setSchedule dEx nEx false wNone wNone bootState).activeSchedules .dayStart) = dEx.startMinute ∧
     parseHourArg (getFormattedHourMinuteConcatenation
        (setSchedule dEx nEx false wNone wNone bootState).activeSchedules .dayEnd) = dEx.endHour ∧
     parseMinuteArg (getFormattedHourMinuteConcatenation
        (setSchedule dEx nEx false wNone wNone bootState).activeSchedules .dayEnd) = dEx.endMinute ∧
     parseHourArg (getFormattedHourMinuteConcatenation
        (setSchedule dEx nEx false wNone wNone bootState).activeSchedules .nightStart) = nEx.startHour ∧
     parseMinuteArg (getFormattedHourMinuteConcatenation
        (setSchedule dEx nEx false wNone wNone bootState).activeSchedules .nightStart) = nEx.startMinute ∧
     parseHourArg (getFormattedHourMinuteConcatenation
        (setSchedule dEx nEx false wNone wNone bootState).activeSchedules .nightEnd) = nEx.endHour ∧
     parseMinuteArg (getFormattedHourMinuteConcatenation
        (setSchedule dEx nEx false wNone wNone bootState).activeSchedules .nightEnd) = nEx.endMinute) :=
  setSchedule_roundTrip dEx nEx false wNone wNone bootState
    (by decide) (by decide) (by decide) (by decide)

/-- C6 (amended): every alarm firing sets or clears the latched output
flag named by its tag (start-alarms set it true, end-alarms set it
false) and immediately writes the full `ActiveState` to EEPROM; no field
of the in-memory state other than the fired output flag and the
`persistedInEEPROM` flag — which the triggered persistence write sets to
the commit's boolean result — is changed, and the registry and alarms
are untouched. -/
theorem alarm_callbacks_spec (c : Bool) (st : SystemState) :
    (startDay c st = { st with
      activeSchedules := { st.activeSchedules with
        currentState := { st.activeSchedules.currentState with dayActive := true },
        persistedInEEPROM := c },
      eeprom := { st.activeSchedules with
        currentState := { st.activeSchedules.currentState with dayActive := true },
        persistedInEEPROM := true } }) ∧
    (endDay c st = { st with
      activeSchedules := { st.activeSchedules with
        currentState := { st.activeSchedules.currentState with dayActive := false },
        persistedInEEPROM := c },
      eeprom := { st.activeSchedules with
        currentState := { st.activeSchedules.currentState with dayActive := false },
        persistedInEEPROM := true } }) ∧
    (startNight c st = { st with
      activeSchedules := { st.activeSchedules with
        currentState := { st.activeSchedules.currentState with nightActive := true },
        persistedInEEPROM := c },
      eeprom := { st.activeSchedules with
        currentState := { st.activeSchedules.currentState with nightActive := true },
        persistedInEEPROM := true } }) ∧
    (endNight c st = { st with
      activeSchedules := { st.activeSchedules with
        currentState := { st.activeSchedules.currentState with nightActive := false },
        persistedInEEPROM := c },
      eeprom := { st.activeSchedules with
        currentState := { st.activeSchedules.currentState with nightActive := false },
        persistedInEEPROM := true } }) :=
  ⟨rfl, rfl, rfl, rfl⟩

/-- Counterexample to C6 as stated: a firing changes a field of
`ActiveState` other than the output flags — on a state whose
`persistedInEEPROM` is false, `startDay` with a successful commit leaves
that flag true. -/
theorem startDay_changes_persisted_flag :
    sampleInstalled.activeSchedules.persistedInEEPROM = false ∧
    (startDay true sampleInstalled).activeSchedules.currentState.dayActive = true ∧
    (startDay true sampleInstalled).activeSchedules.persistedInEEPROM = true := by
  decide

/-- C8: when the derived output is emitted, an active day channel is
driven by `analogWrite` at the duty cycle `map(dayIntensity, 0, 100, 0,
1023)` — which for any intensity equals `i * 1023 / 100`, and is 818 at
intensity 80 — and an inactive day channel is driven low; the night
channel behaves the same with `nightIntensity`. -/
theorem setOutputState_spec (a : StateContainer) :
    (setOutputState a).1 =
      (if a.currentState.dayActive = true then
        PinCommand.analogWrite dayPin (arduinoMap a.dayIntensity 0 100 0 1023)
      else PinCommand.digitalWriteLow dayPin) ∧
    (setOutputState a).2 =
      (if a.currentState.nightActive = true then
        PinCommand.analogWrite nightPin (arduinoMap a.nightIntensity 0 100 0 1023)
      else PinCommand.digitalWriteLow nightPin) ∧
    (∀ i : Int, arduinoMap i 0 100 0 1023 = i * 1023 / 100) ∧
    arduinoMap 80 0 100 0 1023 = 818 := by
  refine ⟨rfl, rfl, ?_, by decide⟩
  intro i
  unfold arduinoMap
  simp

/-- C9: every schedule mutation clears the persisted flag
(`setSchedule` leaves it false), and a save operation makes the
in-memory flag exactly the commit's boolean result while changing
nothing else in the in-memory state — in particular a failed commit
leaves the schedule intact with the flag false. -/
theorem persisted_flag_spec (d n : Schedule) (dst c : Bool) (wd wn : Schedule)
    (cur : StateContainer) (st : SystemState) :
    (setSchedule d n dst wd wn st).activeSchedules.persistedInEEPROM = false ∧
    (saveSettings c cur st).1 = c ∧
    (saveSettings c cur st).2.activeSchedules =
      { st.activeSchedules with persistedInEEPROM := c } := by
  refine ⟨?_, rfl, rfl⟩
  rw [setSchedule_activeSchedules]
  by_cases hwk : (wd.startHour != -1) = true
  · rw [if_pos hwk]
  · rw [if_neg hwk]

/-- C10: the snapshot written by every save has `persistedInEEPROM`
forced to true regardless of the in-memory flag and of whether the
commit succeeds, and the startup restore overwrites the live state with
the loaded snapshot exactly when the snapshot's flag reads true, leaving
everything unchanged otherwise. -/
theorem snapshot_flag_spec (c : Bool) (cur : StateContainer) (st : SystemState) :
    (saveSettings c cur st).2.eeprom = { cur with persistedInEEPROM := true } ∧
    readSavedSettings st =
      (if st.eeprom.persistedInEEPROM = true then
        { st with
          dstOffsetInSeconds := (if st.eeprom.dstActive = true then 3600 else 0),
          activeSchedules := st.eeprom }
      else st) :=
  ⟨rfl, rfl⟩

lemma setSchedule_time_fields (d n : Schedule) (dst : Bool) (wd wn : Schedule)
    (st : SystemState) :
    (setSchedule d n dst wd wn st).activeSchedules.day.startHour = d.startHour ∧
    (setSchedule d n dst wd wn st).activeSchedules.day.startMinute = d.startMinute ∧
    (setSchedule d n dst wd wn st).activeSchedules.day.endHour = d.endHour ∧
    (setSchedule d n dst wd wn st).activeSchedules.day.endMinute = d.endMinute ∧
    (setSchedule d n dst wd wn st).activeSchedules.night.startHour = n.startHour ∧
    (setSchedule d n dst wd wn st).activeSchedules.night.startMinute = n.startMinute ∧
    (setSchedule d n dst wd wn st).activeSchedules.night.endHour = n.endHour ∧
    (setSchedule d n dst wd wn st).activeSchedules.night.endMinute = n.endMinute ∧
    (setSchedule d n dst wd wn st).activeSchedules.weekendDay.startHour = wd.startHour ∧
    (setSchedule d n dst wd wn st).activeSchedules.weekendNight.startHour = wn.startHour ∧
    (setSchedule d n dst wd wn st).activeSchedules.initialized = true := by
  rw [setSchedule_activeSchedules]
  by_cases hwk : (wd.startHour != -1) = true
  · rw [if_pos hwk]
    exact ⟨rfl, rfl, rfl, rfl, rfl, rfl, rfl, rfl, rfl, rfl, rfl⟩
  · rw [if_neg hwk]
    exact ⟨rfl, rfl, rfl, rfl, rfl, rfl, rfl, rfl, rfl, rfl, rfl⟩

/-- Counterexample to C3 as stated: a schedule whose day start has hour
24 is not rejected — the handler answers with the normal success page
and installs hour 24, replacing the previously active schedule's times
and alarm slots. -/
theorem hour24_accepted_cex :
    (handlePostSchedule reqHour24 true sampleInstalled).1 = HttpResponse.okTime ∧
    sampleInstalled.activeSchedules.day.startHour = 7 ∧
    (handlePostSchedule reqHour24 true sampleInstalled).2.activeSchedules.day.startHour = 24 ∧
    (handlePostSchedule reqHour24 true sampleInstalled).2.registry ≠ sampleInstalled.registry := by
  decide

lemma handlePostSchedule_ok_fields (req : PostRequest) (c : Bool) (st : SystemState)
    (hgk : req.gatekeeper = some superSecretPassword)
    (hreq : serverHasRequiredArgs req = true) :
    (handlePostSchedule req c st).1 = HttpResponse.okTime ∧
    (handlePostSchedule req c st).2.activeSchedules.day.startHour =
      parseHourArg (req.dayStart.getD "") ∧
    (handlePostSchedule req c st).2.activeSchedules.day.startMinute =
      parseMinuteArg (req.dayStart.getD "") ∧
    (handlePostSchedule req c st).2.activeSchedules.day.endHour =
      parseHourArg (req.dayEnd.getD "") ∧
    (handlePostSchedule req c st).2.activeSchedules.day.endMinute =
      parseMinuteArg (req.dayEnd.getD "") ∧
    (handlePostSchedule req c st).2.activeSchedules.night.startHour =
      parseHourArg (req.nightStart.getD "") ∧
    (handlePostSchedule req c st).2.activeSchedules.night.startMinute =
      parseMinuteArg (req.nightStart.getD "") ∧
    (handlePostSchedule req c st).2.activeSchedules.night.endHour =
      parseHourArg (req.nightEnd.getD "") ∧
    (handlePostSchedule req c st).2.activeSchedules.night.endMinute =
      parseMinuteArg (req.nightEnd.getD "") ∧
    (handlePostSchedule req c st).2.activeSchedules.weekendDay.startHour =
      (if serverHasOptionalArgs req = true then
        parseHourArg (req.weekendDayStart.getD "") else -1) ∧
    (handlePostSchedule req c st).2.activeSchedules.weekendNight.startHour =
      (if serverHasOptionalArgs req = true then
        parseHourArg (req.weekendNightStart.getD "") else -1) ∧
    (handlePostSchedule req c st).2.activeSchedules.initialized = true := by
  have h1 : (req.gatekeeper.isNone || (req.gatekeeper.getD "" == "")) = false := by
    rw [hgk]
    rfl
  have h2 : (req.gatekeeper.getD "" == superSecretPassword) = true := by
    rw [hgk]
    rfl
  unfold handlePostSchedule
  rw [h1, h2, hreq]
  simp only [Bool.false_eq_true, if_false, if_true]
  refine ⟨?_, ?_, ?_, ?_, ?_, ?_, ?_, ?_, ?_, ?_, ?_, ?_⟩
  · trivial
  · exact (setSchedule_time_fields _ _ _ _ _ _).1
  · exact (setSchedule_time_fields _ _ _ _ _ _).2.1
  · exact (setSchedule_time_fields _ _ _ _ _ _).2.2.1
  · exact (setSchedule_time_fields _ _ _ _ _ _).2.2.2.1
  · exact (setSchedule_time_fields _ _ _ _ _ _).2.2.2.2.1
  · exact (setSchedule_time_fields _ _ _ _ _ _).2.2.2.2.2.1
  · exact (setSchedule_time_fields _ _ _ _ _ _).2.2.2.2.2.2.1
  · exact (setSchedule_time_fields _ _ _ _ _ _).2.2.2.2.2.2.2.1
  · refine ((setSchedule_time_fields _ _ _ _ _ _).2.2.2.2.2.2.2.2.1).trans ?_
    split <;> rfl
  · refine ((setSchedule_time_fields _ _ _ _ _ _).2.2.2.2.2.2.2.2.2.1).trans ?_
    split <;> rfl
  · rw [setSchedule_activeSchedules]
    split <;> rfl

/-- C3 (amended): the engine performs no time-of-day range validation:
any authenticated submission with the required fields present — whatever
hour and minute values it carries, hour 24 included — is accepted with
the normal success response, and the submitted times are installed
verbatim as the active schedule (there is no InvalidTimeOfDay error and
the previous schedule is replaced). -/
theorem handlePostSchedule_no_validation (req : PostRequest) (c : Bool) (st : SystemState)
    (hgk : req.gatekeeper = some superSecretPassword)
    (hreq : serverHasRequiredArgs req = true) :
    (handlePostSchedule req c st).1 = HttpResponse.okTime ∧
    (handlePostSchedule req c st).2.activeSchedules.day.startHour =
      parseHourArg (req.dayStart.getD "") ∧
    (handlePostSchedule req c st).2.activeSchedules.day.startMinute =
      parseMinuteArg (req.dayStart.getD "") ∧
    (handlePostSchedule req c st).2.activeSchedules.day.endHour =
      parseHourArg (req.dayEnd.getD "") ∧
    (handlePostSchedule req c st).2.activeSchedules.day.endMinute =
      parseMinuteArg (req.dayEnd.getD "") ∧
    (handlePostSchedule req c st).2.activeSchedules.night.startHour =
      parseHourArg (req.nightStart.getD "") ∧
    (handlePostSchedule req c st).2.activeSchedules.night.startMinute =
      parseMinuteArg (req.nightStart.getD "") ∧
    (handlePostSchedule req c st).2.activeSchedules.night.endHour =
      parseHourArg (req.nightEnd.getD "") ∧
    (handlePostSchedule req c st).2.activeSchedules.night.endMinute =
      parseMinuteArg (req.nightEnd.getD "") ∧
    (handlePostSchedule req c st).2.activeSchedules.initialized = true := by
  obtain ⟨e1, e2, e3, e4, e5, e6, e7, e8, e9, _, _, e12⟩ :=
    handlePostSchedule_ok_fields req c st hgk hreq
  exact ⟨e1, e2, e3, e4, e5, e6, e7, e8, e9, e12⟩

/-- Witness for the amended C3, at the concrete hour-24 request. -/
theorem handlePostSchedule_no_validation_witness :
    (handlePostSchedule reqHour24 true sampleInstalled).1 = HttpResponse.okTime ∧
    (handlePostSchedule reqHour24 true sampleInstalled).2.activeSchedules.day.startHour =
      parseHourArg (reqHour24.dayStart.getD "") ∧
    (handlePostSchedule reqHour24 true sampleInstalled).2.activeSchedules.day.startMinute =
      parseMinuteArg (reqHour24.dayStart.getD "") ∧
    (handlePostSchedule reqHour24 true sampleInstalled).2.activeSchedules.day.endHour =
      parseHourArg (reqHour24.dayEnd.getD "") ∧
    (handlePostSchedule reqHour24 true sampleInstalled).2.activeSchedules.day.endMinute =
      parseMinuteArg (reqHour24.dayEnd.getD "") ∧
    (handlePostSchedule reqHour24 true sampleInstalled).2.activeSchedules.night.startHour =
      parseHourArg (reqHour24.nightStart.getD "") ∧
    (handlePostSchedule reqHour24 true sampleInstalled).2.activeSchedules.night.startMinute =
      parseMinuteArg (reqHour24.nightStart.getD "") ∧
    (handlePostSchedule reqHour24 true sampleInstalled).2.activeSchedules.night.endHour =
      parseHourArg (reqHour24.nightEnd.getD "") ∧
    (handlePostSchedule reqHour24 true sampleInstalled).2.activeSchedules.night.endMinute =
      parseMinuteArg (reqHour24.nightEnd.getD "") ∧
    (handlePostSchedule reqHour24 true sampleInstalled).2.activeSchedules.initialized = true :=
  handlePostSchedule_no_validation reqHour24 true sampleInstalled (by rfl) (by decide)

/-- Counterexample to C4 as stated: a submission carrying only one of
the four weekend times is not rejected — the handler answers with the
normal success page, and it does affect the previous schedule: the old
weekend override is discarded and the regular times are replaced. -/
theorem partial_weekend_accepted_cex :
    (handlePostSchedule reqPartialWeekend true sampleWeekendInstalled).1 = HttpResponse.okTime ∧
    sampleWeekendInstalled.activeSchedules.weekendDay.startHour = 9 ∧
    (handlePostSchedule reqPartialWeekend true
      sampleWeekendInstalled).2.activeSchedules.weekendDay.startHour = -1 ∧
    sampleWeekendInstalled.activeSchedules.day.startHour = 7 ∧
    (handlePostSchedule reqPartialWeekend true
      sampleWeekendInstalled).2.activeSchedules.day.startHour = 8 := by
  decide

/-- C4 (amended): a submission that does not supply all four weekend
times (`serverHasOptionalArgs` false) is accepted rather than rejected:
the weekend fields are silently ignored, the schedule is installed with
no weekend override (sentinel start hour -1 on both weekend channels),
and the regular times from the request replace the previous schedule;
weekend times only take effect when all four are present. -/
theorem handlePostSchedule_partial_weekend (req : PostRequest) (c : Bool) (st : SystemState)
    (hgk : req.gatekeeper = some superSecretPassword)
    (hreq : serverHasRequiredArgs req = true)
    (hopt : serverHasOptionalArgs req = false) :
    (handlePostSchedule req c st).1 = HttpResponse.okTime ∧
    (handlePostSchedule req c st).2.activeSchedules.weekendDay.startHour = -1 ∧
    (handlePostSchedule req c st).2.activeSchedules.weekendNight.startHour = -1 ∧
    (handlePostSchedule req c st).2.activeSchedules.day.startHour =
      parseHourArg (req.dayStart.getD "") ∧
    (handlePostSchedule req c st).2.activeSchedules.night.startHour =
      parseHourArg (req.nightStart.getD "") ∧
    (handlePostSchedule req c st).2.activeSchedules.initialized = true := by
  obtain ⟨e1, e2, _, _, _, e6, _, _, _, e10, e11, e12⟩ :=
    handlePostSchedule_ok_fields req c st hgk hreq
  rw [hopt] at e10 e11
  simp only [Bool.false_eq_true, if_false] at e10 e11
  exact ⟨e1, e10, e11, e2, e6, e12⟩

/-- Witness for the amended C4, at the concrete partial-weekend
request. -/
theorem handlePostSchedule_partial_weekend_witness :
    (handlePostSchedule reqPartialWeekend true sampleWeekendInstalled).1 =
      HttpResponse.okTime ∧
    (handlePostSchedule reqPartialWeekend true
      sampleWeekendInstalled).2.activeSchedules.weekendDay.startHour = -1 ∧
    (handlePostSchedule reqPartialWeekend true
      sampleWeekendInstalled).2.activeSchedules.weekendNight.startHour = -1 ∧
    (handlePostSchedule reqPartialWeekend true
      sampleWeekendInstalled).2.activeSchedules.day.startHour =
      parseHourArg (reqPartialWeekend.dayStart.getD "") ∧
    (handlePostSchedule reqPartialWeekend true
      sampleWeekendInstalled).2.activeSchedules.night.startHour =
      parseHourArg (reqPartialWeekend.nightStart.getD "") ∧
    (handlePostSchedule reqPartialWeekend true
      sampleWeekendInstalled).2.activeSchedules.initialized = true :=
  handlePostSchedule_partial_weekend reqPartialWeekend true sampleWeekendInstalled
    (by rfl) (by decide) (by decide)

end Nightlight
